import Mathlib

/-!
Verification of the session/game state machine of the riddle-game backend
(`backend/game_service.py` and `backend/mymain.py`).

The anonymous-session store is a Python dict `anonymous_sessions`; here it is
an association list from session id to session record.  The external riddle
generator (`generate_riddle`) either returns a riddle or raises; each endpoint
embedding takes the outcome of its (single) generator call as an explicit
`Option Riddle` argument, `none` meaning the call raised.  The fresh uuid of
`create_anonymous_session` is likewise an explicit argument.  Python mutates
the session record in place, so an endpoint that raises after mutating leaves
the mutation behind: embedded endpoints that can raise mid-way return the
store alongside the error.
-/

/-- Riddle model from `backend/schemas.py`: a question/answer pair. -/
structure Riddle where
  question : String
  answer : String
deriving Repr, DecidableEq

/-- One record of `questions_history`, as built in `backend/mymain.py`
(`start_game` and `submit_answer`): `user_answer` and `correct` start out
`None`. -/
structure HistoryEntry where
  question : String
  user_answer : Option String
  correct : Option Bool
  correct_answer : String
deriving Repr, DecidableEq

/-- The anonymous session record created by
`game_service.create_anonymous_session`. -/
structure AnonSession where
  score : Nat
  active : Bool
  current_riddle : Option Riddle
  total_answered : Nat
  correct_answers : Nat
  questions_history : List HistoryEntry
  is_anonymous : Bool
deriving Repr, DecidableEq

/-- The `anonymous_sessions` dict, as an association list. -/
abbrev Store := List (String × AnonSession)

/-- Dict lookup: first binding of the key, if any. -/
def storeGet (store : Store) (sid : String) : Option AnonSession :=
  match store with
  | [] => none
  | (k, s) :: rest => if k = sid then some s else storeGet rest sid

/-- Overwrite every binding of an existing key (dict item assignment /
in-place mutation of the looked-up record). -/
def storeSet (store : Store) (sid : String) (s : AnonSession) : Store :=
  match store with
  | [] => []
  | (k, t) :: rest =>
      if k = sid then (k, s) :: storeSet rest sid s
      else (k, t) :: storeSet rest sid s

/-- Dict assignment `anonymous_sessions[sid] = s`: overwrite if present,
otherwise add a new binding. -/
def storeInsert (store : Store) (sid : String) (s : AnonSession) : Store :=
  if (storeGet store sid).isSome then storeSet store sid s else (sid, s) :: store

/-- Embeds `game_service.create_anonymous_session`, with the fresh uuid passed in:
stores a zeroed, active, anonymous session and returns the updated dict. -/
def create_anonymous_session (store : Store) (sid : String) : Store :=
  storeInsert store sid
    { score := 0
      active := true
      current_riddle := none
      total_answered := 0
      correct_answers := 0
      questions_history := []
      is_anonymous := true }

/-- Embeds `game_service.get_anonymous_session`. -/
def get_anonymous_session (store : Store) (sid : String) : Option AnonSession :=
  storeGet store sid

/-- Embeds `game_service.update_anonymous_session`, specialised to the one update
shape the code ever passes (`start_game`: set `current_riddle`, replace
`questions_history`).  Returns `true` iff the id was present. -/
def update_anonymous_session (store : Store) (sid : String)
    (riddle : Option Riddle) (hist : List HistoryEntry) : Bool × Store :=
  match storeGet store sid with
  | none => (false, store)
  | some s =>
      (true, storeSet store sid
        { s with current_riddle := riddle, questions_history := hist })

/-- Embeds `game_service.delete_anonymous_session`. -/
def delete_anonymous_session (store : Store) (sid : String) : Bool × Store :=
  match storeGet store sid with
  | none => (false, store)
  | some _ => (true, store.filter (fun p => decide (p.1 ≠ sid)))

/-- The `HTTPException`s the four game endpoints can raise, plus the
unhandled `TypeError` that subscripting `current_riddle = None` would raise. -/
inductive ApiError where
  /-- Raised as "No active game session." (missing or empty `session_id` cookie). -/
  | noSessionCookie
  /-- Raised as "Invalid or inactive session." by the `/answer` guard. -/
  | invalidSession
  /-- Raised as "Session not found." by `/score` and `/end`. -/
  | sessionNotFound
  /-- Unhandled `TypeError`: `session["current_riddle"]` is `None`. -/
  | noCurrentRiddle
  /-- Means `generate_riddle` raised (timeout, non-200 reply, or parse failure). -/
  | generatorFailed
deriving Repr, DecidableEq

/-- Response model of `POST /start`. -/
structure StartResponse where
  question : String
deriving Repr, DecidableEq

/-- Response model of `POST /answer`. -/
structure AnswerResponse where
  correct : Bool
  question : String
  score : Nat
  total_answered : Nat
  correct_answers : Nat
  message : String
deriving Repr, DecidableEq

/-- Response model of `GET /score`.  `success_rate` is a Python float;
it is modelled as a rational. -/
structure ScoreResponse where
  score : Nat
  total_answered : Nat
  correct_answers : Nat
  success_rate : ℚ
  active : Bool
  current_question : Option String
deriving Repr, DecidableEq

/-- Response model of `POST /end`. -/
structure EndResponse where
  final_score : Nat
  total_questions : Nat
  correct_answers : Nat
  success_rate : ℚ
  message : String
deriving Repr, DecidableEq

/-- Models the Python builtin `round` to the nearest integer, ties to even. -/
def roundHalfEven (q : ℚ) : ℤ :=
  if q - ⌊q⌋ < 1 / 2 then ⌊q⌋
  else if 1 / 2 < q - ⌊q⌋ then ⌊q⌋ + 1
  else if ⌊q⌋ % 2 = 0 then ⌊q⌋ else ⌊q⌋ + 1

/-- Models Python `round(x, 2)`. -/
def pyRound2 (q : ℚ) : ℚ := (roundHalfEven (q * 100) : ℚ) / 100

/-- Models Python `str.strip()`: drop leading and trailing whitespace. -/
def pyStrip (s : String) : String :=
  ⟨((s.data.dropWhile Char.isWhitespace).reverse.dropWhile
      Char.isWhitespace).reverse⟩

/-- Models Python `str.lower()` on one character (ASCII range). -/
def pyLowerChar (c : Char) : Char :=
  if 'A' ≤ c ∧ c ≤ 'Z' then Char.ofNat (c.toNat + 32) else c

/-- Models Python `str.lower()`. -/
def pyLower (s : String) : String := ⟨s.data.map pyLowerChar⟩

/-- Composition `.strip().lower()` as applied to both answers in `submit_answer`. -/
def stripLower (s : String) : String := pyLower (pyStrip s)

deriving instance DecidableEq for Except

/-- Endpoint `POST /start` (`start_game` in `backend/mymain.py`).  The session is
created in the dict first; then the riddle is fetched; on success the session
is seeded with the riddle and a one-entry history.  `fetched` is the outcome
of the `generate_riddle()` call; an error carries the dict as the raised
exception leaves it. -/
def start_game (store : Store) (sid : String) (fetched : Option Riddle) :
    Except (ApiError × Store) (StartResponse × Store) :=
  let store1 := create_anonymous_session store sid
  match fetched with
  | none => .error (.generatorFailed, store1)
  | some riddle =>
      let entry : HistoryEntry :=
        { question := riddle.question
          user_answer := none
          correct := none
          correct_answer := riddle.answer }
      let (_, store2) := update_anonymous_session store1 sid (some riddle) [entry]
      .ok ({ question := riddle.question }, store2)

/-- Endpoint `POST /answer` (`submit_answer` in `backend/mymain.py`).  `sid` is the
`session_id` cookie (absent or empty ⇒ "No active game session.").  The guard
checks presence and `is_anonymous` only.  Counters are updated in place
*before* the next riddle is fetched; on fetch failure the raised exception
leaves those updates behind, so the error carries the mutated dict. -/
def submit_answer (store : Store) (sid : Option String) (answer : String)
    (fetched : Option Riddle) :
    Except (ApiError × Store) (AnswerResponse × Store) :=
  match sid with
  | none => .error (.noSessionCookie, store)
  | some sid =>
    if sid = "" then .error (.noSessionCookie, store) else
    match get_anonymous_session store sid with
    | none => .error (.invalidSession, store)
    | some session =>
      if !session.is_anonymous then .error (.invalidSession, store) else
      match session.current_riddle with
      | none => .error (.noCurrentRiddle, store)
      | some cur =>
        let correct_answer := stripLower cur.answer
        let user_answer := stripLower answer
        let is_correct := user_answer = correct_answer
        let session1 : AnonSession :=
          { session with
              total_answered := session.total_answered + 1
              score := if is_correct then session.score + 1 else session.score
              correct_answers :=
                if is_correct then session.correct_answers + 1
                else session.correct_answers }
        let store1 := storeSet store sid session1
        match fetched with
        | none => .error (.generatorFailed, store1)
        | some new_riddle =>
          let session2 : AnonSession :=
            { session1 with
                current_riddle := some new_riddle
                questions_history := session1.questions_history ++
                  [{ question := new_riddle.question
                     user_answer := none
                     correct := none
                     correct_answer := new_riddle.answer }] }
          let store2 := storeSet store1 sid session2
          .ok
            ({ correct := is_correct
               question := new_riddle.question
               score := session2.score
               total_answered := session2.total_answered
               correct_answers := session2.correct_answers
               message :=
                 if is_correct then "✅ Correct! Here's your next riddle."
                 else "❌ Wrong! The correct answer was '" ++ correct_answer ++
                   "'. Try this next one!" }, store2)

/-- Endpoint `GET /score` (`get_score` in `backend/mymain.py`).  Read-only. -/
def get_score (store : Store) (sid : Option String) :
    Except ApiError ScoreResponse :=
  match sid with
  | none => .error .noSessionCookie
  | some sid =>
    if sid = "" then .error .noSessionCookie else
    match get_anonymous_session store sid with
    | none => .error .sessionNotFound
    | some session =>
      let success_rate : ℚ :=
        if session.total_answered > 0 then
          pyRound2 ((session.correct_answers : ℚ) /
            (session.total_answered : ℚ) * 100)
        else 0
      if session.active then
        match session.current_riddle with
        | none => .error .noCurrentRiddle
        | some cur =>
            .ok
              { score := session.score
                total_answered := session.total_answered
                correct_answers := session.correct_answers
                success_rate := success_rate
                active := session.active
                current_question := some cur.question }
      else
        .ok
          { score := session.score
            total_answered := session.total_answered
            correct_answers := session.correct_answers
            success_rate := success_rate
            active := session.active
            current_question := none }

/-- Endpoint `POST /end` (`end_game` in `backend/mymain.py`): mark the session
inactive, then compute the final snapshot from the stored counters. -/
def end_game (store : Store) (sid : Option String) :
    Except ApiError (EndResponse × Store) :=
  match sid with
  | none => .error .noSessionCookie
  | some sid =>
    if sid = "" then .error .noSessionCookie else
    match get_anonymous_session store sid with
    | none => .error .sessionNotFound
    | some session =>
      let session1 : AnonSession := { session with active := false }
      let store1 := storeSet store sid session1
      let success_rate : ℚ :=
        if session1.total_answered > 0 then
          pyRound2 ((session1.correct_answers : ℚ) /
            (session1.total_answered : ℚ) * 100)
        else 0
      .ok
        ({ final_score := session1.score
           total_questions := session1.total_answered
           correct_answers := session1.correct_answers
           success_rate := success_rate
           message := "Game ended successfully! Thanks for playing!" }, store1)

/-- A state-changing call against the store, with the outcome of its
generator call (if it makes one) recorded. -/
inductive GameOp where
  | start (sid : String) (fetched : Option Riddle)
  | answer (sid : Option String) (text : String) (fetched : Option Riddle)
  | endGame (sid : Option String)

/-- The store after a call, whether the call succeeded or raised. -/
def applyOp (store : Store) : GameOp → Store
  | .start sid fetched =>
      match start_game store sid fetched with
      | .ok (_, st) => st
      | .error (_, st) => st
  | .answer sid text fetched =>
      match submit_answer store sid text fetched with
      | .ok (_, st) => st
      | .error (_, st) => st
  | .endGame sid =>
      match end_game store sid with
      | .ok (_, st) => st
      | .error _ => store

/-- Invariant: `correct_answers` never exceeds `total_answered` (spec §8). -/
abbrev counterInv (s : AnonSession) : Prop :=
  s.correct_answers ≤ s.total_answered

/-- Invariant: `score` coincides with `correct_answers`. -/
abbrev scoreInv (s : AnonSession) : Prop :=
  s.score = s.correct_answers

/-- A per-session predicate holding of every session in the dict. -/
abbrev storeAll (P : AnonSession → Prop) (store : Store) : Prop :=
  ∀ p ∈ store, P p.2

theorem storeGet_mem {store : Store} {sid : String} {s : AnonSession}
    (h : storeGet store sid = some s) : (sid, s) ∈ store := by
  induction store with
  | nil => simp [storeGet] at h
  | cons p rest ih =>
      obtain ⟨k, t⟩ := p
      by_cases hk : k = sid
      · subst hk
        simp [storeGet] at h
        subst h
        exact List.mem_cons_self _ _
      · simp [storeGet, hk] at h
        exact List.mem_cons_of_mem _ (ih h)

theorem storeGet_storeSet_of_isSome {store : Store} {sid : String}
    {t : AnonSession} (h : (storeGet store sid).isSome) :
    storeGet (storeSet store sid t) sid = some t := by
  induction store with
  | nil => simp [storeGet] at h
  | cons p rest ih =>
      obtain ⟨k, u⟩ := p
      by_cases hk : k = sid
      · subst hk
        simp [storeGet, storeSet]
      · simp [storeGet, storeSet, hk] at h ⊢
        exact ih h

theorem storeSet_storeSet {store : Store} {sid : String} {t u : AnonSession} :
    storeSet (storeSet store sid t) sid u = storeSet store sid u := by
  induction store with
  | nil => rfl
  | cons p rest ih =>
      obtain ⟨k, v⟩ := p
      by_cases hk : k = sid
      · simp [storeSet, hk, ih]
      · simp [storeSet, hk, ih]

theorem storeAll_storeSet {P : AnonSession → Prop} {store : Store}
    {sid : String} {t : AnonSession} (h : storeAll P store) (ht : P t) :
    storeAll P (storeSet store sid t) := by
  induction store with
  | nil => intro p hp; simp [storeSet] at hp
  | cons q rest ih =>
      obtain ⟨k, u⟩ := q
      intro p hp
      by_cases hk : k = sid
      · simp [storeSet, hk] at hp
        rcases hp with hp | hp
        · subst hp; exact ht
        · exact ih (fun r hr => h r (List.mem_cons_of_mem _ hr)) p hp
      · simp [storeSet, hk] at hp
        rcases hp with hp | hp
        · subst hp; exact h _ (List.mem_cons_self _ _)
        · exact ih (fun r hr => h r (List.mem_cons_of_mem _ hr)) p hp

theorem storeAll_storeInsert {P : AnonSession → Prop} {store : Store}
    {sid : String} {t : AnonSession} (h : storeAll P store) (ht : P t) :
    storeAll P (storeInsert store sid t) := by
  unfold storeInsert
  split
  · exact storeAll_storeSet h ht
  · intro p hp
    rcases List.mem_cons.mp hp with hp | hp
    · subst hp; exact ht
    · exact h p hp

/-- The riddle of the worked scenario in spec §8. -/
def exRiddle1 : Riddle :=
  { question := "I have keys but no locks...", answer := "keyboard" }

/-- A second riddle, standing for the next generated one. -/
def exRiddle2 : Riddle :=
  { question := "What gets sharper the more you use it?", answer := "recursion" }

/-- The history entry a successful `/start` seeds for `exRiddle1`. -/
def exEntry1 : HistoryEntry :=
  { question := exRiddle1.question
    user_answer := none
    correct := none
    correct_answer := exRiddle1.answer }

/-- The history entry `/answer` appends for `exRiddle2`. -/
def exEntry2 : HistoryEntry :=
  { question := exRiddle2.question
    user_answer := none
    correct := none
    correct_answer := exRiddle2.answer }

/-- A session exactly as a successful `/start` with `exRiddle1` leaves it. -/
def exSession1 : AnonSession :=
  { score := 0
    active := true
    current_riddle := some exRiddle1
    total_answered := 0
    correct_answers := 0
    questions_history := [exEntry1]
    is_anonymous := true }

/-- A store holding the one freshly started session. -/
def exStore1 : Store := [("s1", exSession1)]

/-- The zeroed session record `create_anonymous_session` stores. -/
def freshSession : AnonSession :=
  { score := 0
    active := true
    current_riddle := none
    total_answered := 0
    correct_answers := 0
    questions_history := []
    is_anonymous := true }

/-- C1.  The claim asserts the `answer` turn is atomic: on a failed
next-riddle fetch, score, total_answered, correct_answers and history are
unchanged and the failure propagates.  The code instead increments the
counters *before* the fetch: on a freshly started session, submitting the
correct answer while the generator call fails propagates the failure but
leaves the stored session with score, total_answered and correct_answers
all incremented (history alone is unchanged). -/
theorem submit_answer_fetch_failure_commits_scoring :
    submit_answer exStore1 (some "s1") " Keyboard " none =
      .error (.generatorFailed,
        [("s1", { exSession1 with
                    score := 1, total_answered := 1, correct_answers := 1 })]) ∧
    ({ exSession1 with
         score := 1, total_answered := 1, correct_answers := 1 }) ≠ exSession1 := by
  constructor
  · decide
  · decide

/-- C2.  The claim asserts that when the riddle fetch fails, no session is
created and the store is unchanged.  The code calls
`create_anonymous_session()` *before* `generate_riddle()`: starting from an
empty store with a failing generator call propagates the failure but leaves
a fresh zeroed session behind in the store. -/
theorem start_game_fetch_failure_creates_session :
    start_game [] "s1" none = .error (.generatorFailed, [("s1", freshSession)]) ∧
    ([("s1", freshSession)] : Store) ≠ ([] : Store) := by
  constructor
  · decide
  · decide

/-- C3.  On an active session, a wrong answer does not end the game: the
session stays active, the score is unchanged, `total_answered` goes up by
one, the next riddle is fetched and returned, and its history entry is
appended. -/
theorem submit_answer_wrong_answer_continues (store : Store) (sid : String)
    (s : AnonSession) (ans : String) (cur next : Riddle)
    (hsid : sid ≠ "")
    (hget : storeGet store sid = some s)
    (hanon : s.is_anonymous = true)
    (hactive : s.active = true)
    (hcur : s.current_riddle = some cur)
    (hwrong : stripLower ans ≠ stripLower cur.answer) :
    ∃ resp store2 s2,
      submit_answer store (some sid) ans (some next) = .ok (resp, store2) ∧
      storeGet store2 sid = some s2 ∧
      resp.correct = false ∧
      resp.question = next.question ∧
      s2.active = true ∧
      s2.score = s.score ∧
      s2.total_answered = s.total_answered + 1 ∧
      s2.current_riddle = some next ∧
      s2.questions_history = s.questions_history ++
        [{ question := next.question
           user_answer := none
           correct := none
           correct_answer := next.answer }] := by
  have hsome : (storeGet store sid).isSome = true := by rw [hget]; rfl
  refine ⟨{ correct := false
            question := next.question
            score := s.score
            total_answered := s.total_answered + 1
            correct_answers := s.correct_answers
            message := "❌ Wrong! The correct answer was '" ++
              stripLower cur.answer ++ "'. Try this next one!" },
          storeSet store sid
            { s with
                total_answered := s.total_answered + 1
                current_riddle := some next
                questions_history := s.questions_history ++
                  [{ question := next.question
                     user_answer := none
                     correct := none
                     correct_answer := next.answer }] },
          { s with
              total_answered := s.total_answered + 1
              current_riddle := some next
              questions_history := s.questions_history ++
                [{ question := next.question
                   user_answer := none
                   correct := none
                   correct_answer := next.answer }] },
          ?_, ?_, rfl, rfl, hactive, rfl, rfl, rfl, rfl⟩
  · simp [submit_answer, get_anonymous_session, hget, hanon, hcur, hsid,
      hwrong, storeSet_storeSet]
  · exact storeGet_storeSet_of_isSome hsome

/-- Witness for C3: the wrong answer "mouse" on a freshly started session. -/
theorem submit_answer_wrong_answer_continues_witness :
    ∃ resp store2 s2,
      submit_answer exStore1 (some "s1") "mouse" (some exRiddle2) =
        .ok (resp, store2) ∧
      storeGet store2 "s1" = some s2 ∧
      resp.correct = false ∧
      resp.question = exRiddle2.question ∧
      s2.active = true ∧
      s2.score = exSession1.score ∧
      s2.total_answered = exSession1.total_answered + 1 ∧
      s2.current_riddle = some exRiddle2 ∧
      s2.questions_history = exSession1.questions_history ++
        [{ question := exRiddle2.question
           user_answer := none
           correct := none
           correct_answer := exRiddle2.answer }] :=
  submit_answer_wrong_answer_continues exStore1 "s1" exSession1 "mouse"
    exRiddle1 exRiddle2 (by decide) (by decide) (by decide) (by decide)
    (by decide) (by decide)

/-- A session after `/end`: marked inactive but still stored, with
`is_anonymous` still true. -/
def endedSession : AnonSession := { exSession1 with active := false }

/-- C4.  The claim: answering against an absent or inactive session fails
with a no-active-session error and mutates nothing.  The `/answer` guard
checks only presence and `is_anonymous`, never `active`: on an ended
(inactive) session the answer is accepted, the counters are mutated and a
new riddle is issued instead of an error. -/
theorem submit_answer_accepts_inactive_session :
    endedSession.active = false ∧
    submit_answer [("s1", endedSession)] (some "s1") "wrong guess"
        (some exRiddle2) =
      .ok ({ correct := false
             question := exRiddle2.question
             score := 0
             total_answered := 1
             correct_answers := 0
             message :=
               "❌ Wrong! The correct answer was 'keyboard'. Try this next one!" },
           [("s1", { endedSession with
                       total_answered := 1
                       current_riddle := some exRiddle2
                       questions_history := [exEntry1, exEntry2] })]) := by
  constructor
  · decide
  · decide

/-- C5.  The claim: a successful answer writes `user_answer` and
`is_correct` into the last pre-call history entry.  The code never touches
the existing entry: after a correct answer the prior entry still has
`user_answer = none` and `correct = none`; only the fresh entry for the next
riddle is appended. -/
theorem submit_answer_never_fills_prior_entry :
    submit_answer exStore1 (some "s1") " Keyboard " (some exRiddle2) =
      .ok ({ correct := true
             question := exRiddle2.question
             score := 1
             total_answered := 1
             correct_answers := 1
             message := "✅ Correct! Here's your next riddle." },
           [("s1", { exSession1 with
                       score := 1
                       total_answered := 1
                       correct_answers := 1
                       current_riddle := some exRiddle2
                       questions_history := [exEntry1, exEntry2] })]) ∧
    exEntry1.user_answer = none ∧ exEntry1.correct = none := by
  refine ⟨by decide, by decide, by decide⟩

/-- C6.  On a session passing the `/answer` guard, both answers are
normalized by strip + lowercase (`stripLower`), correctness is exact
equality of the normalized strings, `total_answered` goes up by one, and
`score` and `correct_answers` go up by one exactly when the normalized
strings are equal — whether or not the next-riddle fetch succeeds. -/
theorem submit_answer_normalizes_and_scores (store : Store) (sid : String)
    (s : AnonSession) (ans : String) (cur : Riddle) (fetched : Option Riddle)
    (hsid : sid ≠ "") (hget : storeGet store sid = some s)
    (hanon : s.is_anonymous = true) (hactive : s.active = true)
    (hcur : s.current_riddle = some cur) :
    ∃ s2,
      storeGet (applyOp store (.answer (some sid) ans fetched)) sid =
        some s2 ∧
      s2.total_answered = s.total_answered + 1 ∧
      s2.score = (if stripLower ans = stripLower cur.answer
                  then s.score + 1 else s.score) ∧
      s2.correct_answers = (if stripLower ans = stripLower cur.answer
                            then s.correct_answers + 1
                            else s.correct_answers) := by
  have hsome : (storeGet store sid).isSome = true := by rw [hget]; rfl
  cases fetched with
  | none =>
      refine ⟨{ s with
                  total_answered := s.total_answered + 1
                  score := if stripLower ans = stripLower cur.answer
                           then s.score + 1 else s.score
                  correct_answers :=
                    if stripLower ans = stripLower cur.answer
                    then s.correct_answers + 1 else s.correct_answers },
              ?_, rfl, rfl, rfl⟩
      simp only [applyOp, submit_answer, get_anonymous_session, hget, hanon,
        Bool.not_true, Bool.false_eq_true, if_false, if_neg hsid, hcur]
      exact storeGet_storeSet_of_isSome hsome
  | some next =>
      refine ⟨{ s with
                  total_answered := s.total_answered + 1
                  score := if stripLower ans = stripLower cur.answer
                           then s.score + 1 else s.score
                  correct_answers :=
                    if stripLower ans = stripLower cur.answer
                    then s.correct_answers + 1 else s.correct_answers
                  current_riddle := some next
                  questions_history := s.questions_history ++
                    [{ question := next.question
                       user_answer := none
                       correct := none
                       correct_answer := next.answer }] },
              ?_, rfl, rfl, rfl⟩
      simp only [applyOp, submit_answer, get_anonymous_session, hget, hanon,
        Bool.not_true, Bool.false_eq_true, if_false, if_neg hsid, hcur,
        storeSet_storeSet]
      exact storeGet_storeSet_of_isSome hsome

/-- Witness for C6 at the spec scenario: the answer `" Keyboard "` against
correct answer `"keyboard"`. -/
theorem submit_answer_normalizes_and_scores_witness :
    ∃ s2,
      storeGet
        (applyOp exStore1 (.answer (some "s1") " Keyboard " (some exRiddle2)))
        "s1" = some s2 ∧
      s2.total_answered = exSession1.total_answered + 1 ∧
      s2.score = (if stripLower " Keyboard " = stripLower exRiddle1.answer
                  then exSession1.score + 1 else exSession1.score) ∧
      s2.correct_answers =
        (if stripLower " Keyboard " = stripLower exRiddle1.answer
         then exSession1.correct_answers + 1
         else exSession1.correct_answers) :=
  submit_answer_normalizes_and_scores exStore1 "s1" exSession1 " Keyboard "
    exRiddle1 (some exRiddle2) (by decide) (by decide) (by decide)
    (by decide) (by decide)

theorem applyOp_start_cases (store : Store) (sid : String)
    (fetched : Option Riddle) :
    applyOp store (.start sid fetched) = create_anonymous_session store sid ∨
    ∃ r s, fetched = some r ∧
      storeGet (create_anonymous_session store sid) sid = some s ∧
      applyOp store (.start sid fetched) =
        storeSet (create_anonymous_session store sid) sid
          { s with
              current_riddle := some r
              questions_history :=
                [{ question := r.question
                   user_answer := none
                   correct := none
                   correct_answer := r.answer }] } := by
  cases fetched with
  | none => exact Or.inl rfl
  | some r =>
      cases hg : storeGet (create_anonymous_session store sid) sid with
      | none =>
          exact Or.inl
            (by simp [applyOp, start_game, update_anonymous_session, hg])
      | some s =>
          refine Or.inr ⟨r, s, rfl, rfl, ?_⟩
          simp [applyOp, start_game, update_anonymous_session, hg]

theorem applyOp_answer_cases (store : Store) (sid : Option String)
    (ans : String) (fetched : Option Riddle) :
    applyOp store (.answer sid ans fetched) = store ∨
    ∃ sid' s s2, storeGet store sid' = some s ∧
      applyOp store (.answer sid ans fetched) = storeSet store sid' s2 ∧
      s2.total_answered = s.total_answered + 1 ∧
      ((s2.score = s.score + 1 ∧
        s2.correct_answers = s.correct_answers + 1) ∨
       (s2.score = s.score ∧ s2.correct_answers = s.correct_answers)) := by
  cases sid with
  | none => exact Or.inl rfl
  | some sid =>
    by_cases hsid : sid = ""
    · exact Or.inl (by simp [applyOp, submit_answer, hsid])
    · cases hget : storeGet store sid with
      | none =>
          exact Or.inl
            (by simp [applyOp, submit_answer, get_anonymous_session, hget,
              hsid])
      | some s =>
          cases hanon : s.is_anonymous with
          | false =>
              exact Or.inl
                (by simp [applyOp, submit_answer, get_anonymous_session,
                  hget, hsid, hanon])
          | true =>
            cases hcur : s.current_riddle with
            | none =>
                exact Or.inl
                  (by simp [applyOp, submit_answer, get_anonymous_session,
                    hget, hsid, hanon, hcur])
            | some cur =>
              cases fetched with
              | none =>
                  refine Or.inr ⟨sid, s,
                    { s with
                        total_answered := s.total_answered + 1
                        score := if stripLower ans = stripLower cur.answer
                                 then s.score + 1 else s.score
                        correct_answers :=
                          if stripLower ans = stripLower cur.answer
                          then s.correct_answers + 1
                          else s.correct_answers },
                    hget, ?_, rfl, ?_⟩
                  · simp [applyOp, submit_answer, get_anonymous_session,
                      hget, hsid, hanon, hcur]
                  · by_cases hic : stripLower ans = stripLower cur.answer
                    · exact Or.inl ⟨by simp [hic], by simp [hic]⟩
                    · exact Or.inr ⟨by simp [hic], by simp [hic]⟩
              | some next =>
                  refine Or.inr ⟨sid, s,
                    { s with
                        total_answered := s.total_answered + 1
                        score := if stripLower ans = stripLower cur.answer
                                 then s.score + 1 else s.score
                        correct_answers :=
                          if stripLower ans = stripLower cur.answer
                          then s.correct_answers + 1
                          else s.correct_answers
                        current_riddle := some next
                        questions_history := s.questions_history ++
                          [{ question := next.question
                             user_answer := none
                             correct := none
                             correct_answer := next.answer }] },
                    hget, ?_, rfl, ?_⟩
                  · simp [applyOp, submit_answer, get_anonymous_session,
                      hget, hsid, hanon, hcur, storeSet_storeSet]
                  · by_cases hic : stripLower ans = stripLower cur.answer
                    · exact Or.inl ⟨by simp [hic], by simp [hic]⟩
                    · exact Or.inr ⟨by simp [hic], by simp [hic]⟩

theorem applyOp_end_cases (store : Store) (sid : Option String) :
    applyOp store (.endGame sid) = store ∨
    ∃ sid' s, storeGet store sid' = some s ∧
      applyOp store (.endGame sid) =
        storeSet store sid' { s with active := false } := by
  cases sid with
  | none => exact Or.inl rfl
  | some sid =>
    by_cases hsid : sid = ""
    · exact Or.inl (by simp [applyOp, end_game, hsid])
    · cases hget : storeGet store sid with
      | none =>
          exact Or.inl
            (by simp [applyOp, end_game, get_anonymous_session, hget, hsid])
      | some s =>
          exact Or.inr ⟨sid, s, hget,
            by simp [applyOp, end_game, get_anonymous_session, hget, hsid]⟩

/-- C7.  The invariant `correct_answers ≤ total_answered` is preserved by every
transition: session creation and seeding (`/start`), answering
(`/answer`, with either fetch outcome), and ending (`/end`). -/
theorem counterInv_preserved_by_ops (store : Store) (op : GameOp)
    (h : storeAll counterInv store) :
    storeAll counterInv (applyOp store op) := by
  cases op with
  | start sid fetched =>
      have h1 : storeAll counterInv (create_anonymous_session store sid) :=
        storeAll_storeInsert h (Nat.le_refl 0)
      rcases applyOp_start_cases store sid fetched with heq | ⟨r, s, _, hg, heq⟩
      · rw [heq]; exact h1
      · rw [heq]
        exact storeAll_storeSet h1 (h1 _ (storeGet_mem hg))
  | answer sid ans fetched =>
      rcases applyOp_answer_cases store sid ans fetched with
        heq | ⟨sid', s, s2, hg, heq, htot, hsc⟩
      · rw [heq]; exact h
      · rw [heq]
        refine storeAll_storeSet h ?_
        have hs : counterInv s := h _ (storeGet_mem hg)
        rcases hsc with ⟨h1, h2⟩ | ⟨h1, h2⟩ <;>
          simp only [counterInv, htot, h2] <;> omega
  | endGame sid =>
      rcases applyOp_end_cases store sid with heq | ⟨sid', s, hg, heq⟩
      · rw [heq]; exact h
      · rw [heq]
        exact storeAll_storeSet h (h _ (storeGet_mem hg))

/-- Witness for C7: the invariant survives a correct answer on the
freshly started store. -/
theorem counterInv_preserved_by_ops_witness :
    storeAll counterInv
      (applyOp exStore1 (.answer (some "s1") " Keyboard " (some exRiddle2))) :=
  counterInv_preserved_by_ops exStore1
    (.answer (some "s1") " Keyboard " (some exRiddle2)) (by decide)

/-- C10.  The invariant `score = correct_answers` holds of every anonymous session and is
preserved by every transition: both are created at 0 and incremented
together, so `score` is redundant with `correct_answers`. -/
theorem scoreInv_preserved_by_ops (store : Store) (op : GameOp)
    (h : storeAll scoreInv store) :
    storeAll scoreInv (applyOp store op) := by
  cases op with
  | start sid fetched =>
      have h1 : storeAll scoreInv (create_anonymous_session store sid) :=
        storeAll_storeInsert h rfl
      rcases applyOp_start_cases store sid fetched with heq | ⟨r, s, _, hg, heq⟩
      · rw [heq]; exact h1
      · rw [heq]
        exact storeAll_storeSet h1 (h1 _ (storeGet_mem hg))
  | answer sid ans fetched =>
      rcases applyOp_answer_cases store sid ans fetched with
        heq | ⟨sid', s, s2, hg, heq, htot, hsc⟩
      · rw [heq]; exact h
      · rw [heq]
        refine storeAll_storeSet h ?_
        have hs : scoreInv s := h _ (storeGet_mem hg)
        rcases hsc with ⟨h1, h2⟩ | ⟨h1, h2⟩ <;>
          simp only [scoreInv, h1, h2] <;> omega
  | endGame sid =>
      rcases applyOp_end_cases store sid with heq | ⟨sid', s, hg, heq⟩
      · rw [heq]; exact h
      · rw [heq]
        exact storeAll_storeSet h (h _ (storeGet_mem hg))

/-- Witness for C10: the redundancy survives a correct answer on the
freshly started store. -/
theorem scoreInv_preserved_by_ops_witness :
    storeAll scoreInv
      (applyOp exStore1 (.answer (some "s1") " Keyboard " (some exRiddle2))) :=
  scoreInv_preserved_by_ops exStore1
    (.answer (some "s1") " Keyboard " (some exRiddle2)) (by decide)

/-- Modelled from the spec wording: `success_rate =
round(correct_answers / total_answered * 100, 2)` when
`total_answered > 0`, else `0.0` — the spec-side formula the endpoint
computations are compared against. -/
def success_rate_spec (correct_answers total_answered : Nat) : ℚ :=
  if total_answered > 0 then
    pyRound2 ((correct_answers : ℚ) / (total_answered : ℚ) * 100)
  else 0

/-- C8.  Both `GET /score` and `POST /end` report a `success_rate` that is
recomputed from the stored counters by the spec formula (the session record
stores no success rate at all), and it is `0` when `total_answered = 0`. -/
theorem success_rate_derived_from_counters (store : Store) (sid : String)
    (s : AnonSession) (hsid : sid ≠ "") (hget : storeGet store sid = some s)
    (hcr : s.active = true → s.current_riddle.isSome = true) :
    (∃ sc, get_score store (some sid) = .ok sc ∧
       sc.score = s.score ∧
       sc.success_rate =
         success_rate_spec s.correct_answers s.total_answered) ∧
    (∃ er store1, end_game store (some sid) = .ok (er, store1) ∧
       er.final_score = s.score ∧
       er.success_rate =
         success_rate_spec s.correct_answers s.total_answered) ∧
    (s.total_answered = 0 →
       success_rate_spec s.correct_answers s.total_answered = 0) := by
  refine ⟨?_, ?_, ?_⟩
  · cases hact : s.active with
    | false =>
        refine ⟨{ score := s.score
                  total_answered := s.total_answered
                  correct_answers := s.correct_answers
                  success_rate :=
                    success_rate_spec s.correct_answers s.total_answered
                  active := s.active
                  current_question := none }, ?_, rfl, rfl⟩
        simp [get_score, get_anonymous_session, hget, hsid, hact,
          success_rate_spec]
    | true =>
        cases hr : s.current_riddle with
        | none => exact absurd (hcr hact) (by simp [hr])
        | some cur =>
            refine ⟨{ score := s.score
                      total_answered := s.total_answered
                      correct_answers := s.correct_answers
                      success_rate :=
                        success_rate_spec s.correct_answers s.total_answered
                      active := s.active
                      current_question := some cur.question }, ?_, rfl, rfl⟩
            simp [get_score, get_anonymous_session, hget, hsid, hact, hr,
              success_rate_spec]
  · refine ⟨{ final_score := s.score
              total_questions := s.total_answered
              correct_answers := s.correct_answers
              success_rate :=
                success_rate_spec s.correct_answers s.total_answered
              message := "Game ended successfully! Thanks for playing!" },
            storeSet store sid { s with active := false }, ?_, rfl, rfl⟩
    simp [end_game, get_anonymous_session, hget, hsid, success_rate_spec]
  · intro h0
    simp [success_rate_spec, h0]

/-- Witness for C8 on the freshly started store (no answers yet, so the
rate is `0`). -/
theorem success_rate_derived_from_counters_witness :
    (∃ sc, get_score exStore1 (some "s1") = .ok sc ∧
       sc.score = exSession1.score ∧
       sc.success_rate =
         success_rate_spec exSession1.correct_answers
           exSession1.total_answered) ∧
    (∃ er store1, end_game exStore1 (some "s1") = .ok (er, store1) ∧
       er.final_score = exSession1.score ∧
       er.success_rate =
         success_rate_spec exSession1.correct_answers
           exSession1.total_answered) ∧
    (exSession1.total_answered = 0 →
       success_rate_spec exSession1.correct_answers
         exSession1.total_answered = 0) :=
  success_rate_derived_from_counters exStore1 "s1" exSession1 (by decide)
    (by decide) (by decide)

/-- C9.  Endpoint `/end` is idempotent on an existing session: the first call marks
it inactive and returns the final snapshot; a second call succeeds, changes
nothing (same store), and returns the identical snapshot; counters and
history are those of the pre-end session. -/
theorem end_game_idempotent (store : Store) (sid : String) (s : AnonSession)
    (hsid : sid ≠ "") (hget : storeGet store sid = some s) :
    ∃ r store1, end_game store (some sid) = .ok (r, store1) ∧
      end_game store1 (some sid) = .ok (r, store1) ∧
      storeGet store1 sid = some { s with active := false } := by
  have hsome : (storeGet store sid).isSome = true := by rw [hget]; rfl
  have hget1 : storeGet (storeSet store sid { s with active := false }) sid =
      some { s with active := false } := storeGet_storeSet_of_isSome hsome
  refine ⟨{ final_score := s.score
            total_questions := s.total_answered
            correct_answers := s.correct_answers
            success_rate :=
              if s.total_answered > 0 then
                pyRound2 ((s.correct_answers : ℚ) /
                  (s.total_answered : ℚ) * 100)
              else 0
            message := "Game ended successfully! Thanks for playing!" },
          storeSet store sid { s with active := false }, ?_, ?_, hget1⟩
  · simp [end_game, get_anonymous_session, hget, hsid]
  · simp [end_game, get_anonymous_session, hget1, hsid, storeSet_storeSet]

/-- Witness for C9 on the freshly started store. -/
theorem end_game_idempotent_witness :
    ∃ r store1, end_game exStore1 (some "s1") = .ok (r, store1) ∧
      end_game store1 (some "s1") = .ok (r, store1) ∧
      storeGet store1 "s1" = some { exSession1 with active := false } :=
  end_game_idempotent exStore1 "s1" exSession1 (by decide) (by decide)
